import Mathlib

set_option maxHeartbeats 1000000

/- Verification development for the DocuSearch core subsystems: the job
   store (job_manager.py), the metadata search engine (search_engine.py)
   and the metrics collector (metrics_collector.py), embedded shallowly.
   Machine arithmetic is modelled exactly over Nat / Rat; wall-clock reads
   (datetime.now, time.time) are modelled by passing the timestamp in as an
   argument, generated ids (uuid) by passing the id in as an argument, and
   the on-disk mirror written by the private save helpers is dropped, since
   the in-memory structures are authoritative. -/

namespace DocuSearch

/-! #### Association lists standing for Python dicts.

    Python dict assignment keeps the position of an existing key; every
    operation modelled here is insensitive to entry order, so assignment is
    modelled as erase-then-append, which preserves lookups and sizes. -/

def lookupA {β : Type} (k : String) : List (String × β) → Option β
  | [] => none
  | (k2, v) :: rest => if k2 = k then some v else lookupA k rest

def eraseA {β : Type} (k : String) : List (String × β) → List (String × β)
  | [] => []
  | (k2, v) :: rest => if k2 = k then eraseA k rest else (k2, v) :: eraseA k rest

def insertA {β : Type} (k : String) (v : β) (l : List (String × β)) : List (String × β) :=
  eraseA k l ++ [(k, v)]

theorem lookupA_append {β : Type} (k : String) (l1 l2 : List (String × β)) :
    lookupA k (l1 ++ l2) = ((lookupA k l1).rec (lookupA k l2) fun v => some v) := by
  induction l1 with
  | nil => simp [lookupA]
  | cons p rest ih =>
    obtain ⟨k2, v⟩ := p
    by_cases h : k2 = k <;> simp [lookupA, h, ih]

theorem lookupA_eraseA_self {β : Type} (k : String) (l : List (String × β)) :
    lookupA k (eraseA k l) = none := by
  induction l with
  | nil => rfl
  | cons p rest ih =>
    obtain ⟨k2, v⟩ := p
    by_cases h : k2 = k <;> simp [lookupA, eraseA, h, ih]

theorem lookupA_eraseA_ne {β : Type} (k k2 : String) (l : List (String × β)) (h : k ≠ k2) :
    lookupA k2 (eraseA k l) = lookupA k2 l := by
  induction l with
  | nil => rfl
  | cons p rest ih =>
    obtain ⟨k3, v⟩ := p
    simp only [eraseA]
    by_cases h3 : k3 = k
    · rw [if_pos h3, ih]
      have hne : ¬ (k3 = k2) := by rw [h3]; exact h
      simp [lookupA, hne]
    · rw [if_neg h3]
      simp only [lookupA]
      by_cases h2 : k3 = k2
      · rw [if_pos h2, if_pos h2]
      · rw [if_neg h2, if_neg h2, ih]

theorem lookupA_insertA_self {β : Type} (k : String) (v : β) (l : List (String × β)) :
    lookupA k (insertA k v l) = some v := by
  simp [insertA, lookupA_append, lookupA_eraseA_self, lookupA]

theorem lookupA_insertA {β : Type} (k k2 : String) (v : β) (l : List (String × β)) :
    lookupA k2 (insertA k v l) = if k = k2 then some v else lookupA k2 l := by
  by_cases h : k = k2
  · subst h
    simp [lookupA_insertA_self]
  · simp only [insertA, lookupA_append, lookupA_eraseA_ne k k2 l h, h, if_false]
    cases hl : lookupA k2 l <;> simp [lookupA, fun hc : k = k2 => h hc]

/-! #### Python string helpers: lower-casing, substring containment.

    The tokenizer and the corruption test in the source operate on ASCII
    text; Char.toLower matches str.lower on that fragment. -/

def pyLower (s : String) : String := String.mk (s.toList.map Char.toLower)

/-- Prefix test on character lists. -/
def isPre : List Char → List Char → Bool
  | [], _ => true
  | _ :: _, [] => false
  | a :: as, b :: bs => a = b && isPre as bs

/-- Substring containment on character lists; the Python operator
    `needle in hay`. -/
def containsSub (needle : List Char) : List Char → Bool
  | [] => isPre needle []
  | c :: rest => isPre needle (c :: rest) || containsSub needle rest

/-- `needle in hay` on strings. -/
def pyInStr (needle hay : String) : Bool := containsSub needle.toList hay.toList

/-- Python truthiness of an optional string: None and the empty string are
    falsy. -/
def truthy : Option String → Bool
  | some s => s != ""
  | none => false

/-! ### Job store (job_manager.py)

    A Job is the job_info dict built by create_job.  The skipped_reasons
    dict is created with exactly the keys unknown_format, file_size_limit
    and page_limit and no key is ever added, so it is embedded as three
    counters.  JobStatus values are embedded as their .value strings. -/

structure FileResult where
  filename : String
  success : Bool
  timestamp : String
  metadata : List (String × String)
  error : Option String
  skip_reason : Option String
  deriving DecidableEq

structure Job where
  job_id : String
  status : String
  total_files : Nat
  processed_files : Nat
  successful_files : Nat
  failed_files : Nat
  skipped_files : Nat
  skipped_unknown_format : Nat
  skipped_file_size_limit : Nat
  skipped_page_limit : Nat
  corrupt_files : Nat
  start_time : String
  end_time : Option String
  current_file : Option String
  progress_percentage : Nat
  metadata_options : List String
  data_source : String
  results : List FileResult
  deriving DecidableEq

def JobStore : Type := List (String × Job)

/-- JobManager.create_job; the generated uuid fragment and the
    datetime.now reading are passed in as job_id and now. -/
def createJob (job_id now : String) (total_files : Nat)
    (metadata_options : List String) (data_source : String)
    (store : JobStore) : JobStore :=
  insertA job_id
    { job_id := job_id
      status := "Processing"
      total_files := total_files
      processed_files := 0
      successful_files := 0
      failed_files := 0
      skipped_files := 0
      skipped_unknown_format := 0
      skipped_file_size_limit := 0
      skipped_page_limit := 0
      corrupt_files := 0
      start_time := now
      end_time := none
      current_file := none
      progress_percentage := 0
      metadata_options := metadata_options
      data_source := data_source
      results := [] } store

/-- JobManager.update_job_progress.  The source computes
    int((processed / total_files) * 100) when total_files > 0; over exact
    arithmetic on the non-negative counters that is truncated division
    processed * 100 / total_files. -/
def updateJobProgress (job_id current_file : String)
    (processed successful failed : Nat) (store : JobStore) : JobStore :=
  match lookupA job_id store with
  | none => store
  | some job =>
    insertA job_id
      { job with
        processed_files := processed
        successful_files := successful
        failed_files := failed
        current_file := some current_file
        progress_percentage :=
          if 0 < job.total_files then processed * 100 / job.total_files else 0 }
      store

/-- The corruption test on the error text from add_file_result:
    `error and (foo in error.lower() or ...)`.  For error = "" both the
    Python truthiness guard and every containment test are false, so the
    guard is subsumed by the containment tests. -/
def corruptMarker : Option String → Bool
  | none => false
  | some e =>
    pyInStr "corrupt" (pyLower e) || pyInStr "not readable" (pyLower e) ||
      pyInStr "not parsable" (pyLower e)

/-- The job update performed by add_file_result on a known job: append the
    FileResult, then bump the counter selected by the branch structure of
    the source. -/
def afrJob (job : Job) (filename : String) (success : Bool) (now : String)
    (metadata : Option (List (String × String)))
    (error skip_reason : Option String) : Job :=
  let result : FileResult :=
    { filename := filename
      success := success
      timestamp := now
      metadata := metadata.getD []
      error := error
      skip_reason := skip_reason }
  let job1 := { job with results := job.results ++ [result] }
  if success then
    { job1 with successful_files := job1.successful_files + 1 }
  else if truthy skip_reason then
    let j := { job1 with skipped_files := job1.skipped_files + 1 }
    match skip_reason with
    | some s =>
      if s = "unknown_format" then
        { j with skipped_unknown_format := j.skipped_unknown_format + 1 }
      else if s = "file_size_limit" then
        { j with skipped_file_size_limit := j.skipped_file_size_limit + 1 }
      else if s = "page_limit" then
        { j with skipped_page_limit := j.skipped_page_limit + 1 }
      else j
    | none => j
  else
    let j := { job1 with failed_files := job1.failed_files + 1 }
    if corruptMarker error then { j with corrupt_files := j.corrupt_files + 1 } else j

/-- JobManager.add_file_result. -/
def addFileResult (job_id filename : String) (success : Bool) (now : String)
    (metadata : Option (List (String × String))) (error skip_reason : Option String)
    (store : JobStore) : JobStore :=
  match lookupA job_id store with
  | none => store
  | some job =>
    insertA job_id (afrJob job filename success now metadata error skip_reason) store

theorem addFileResult_known (store : JobStore) (jid fn : String) (success : Bool)
    (now : String) (md : Option (List (String × String))) (er sr : Option String)
    (job : Job) (h : lookupA jid store = some job) :
    lookupA jid (addFileResult jid fn success now md er sr store)
      = some (afrJob job fn success now md er sr) := by
  simp only [addFileResult, h]
  exact lookupA_insertA_self _ _ _

/-- JobManager.complete_job. -/
def completeJob (job_id : String) (success : Bool) (now : String)
    (store : JobStore) : JobStore :=
  match lookupA job_id store with
  | none => store
  | some job =>
    insertA job_id
      { job with
        status := if success then "Completed" else "Failed"
        end_time := some now
        progress_percentage := 100 }
      store

/-- JobManager.get_job_status: the stored job, or None when unknown.  (The
    source additionally injects a derived processing_time field into the
    returned dict; derived output decoration is not part of any claim and
    is not modelled.) -/
def getJobStatus (job_id : String) (store : JobStore) : Option Job :=
  lookupA job_id store

/-! ### C1: progress percentage -/

def c1Base : JobStore := createJob "j" "t0" 2 [] "Local" []

def c1Store : JobStore := updateJobProgress "j" "f.pdf" 5 0 0 c1Base

/-- C1 counterexample: with total_files = 2 and processed = 5 the
    resulting progress_percentage is 250, which is not clamped to [0,100],
    refuting the clamping part of the claim. -/
theorem update_progress_not_clamped :
    (getJobStatus "j" c1Store).map Job.progress_percentage = some 250 ∧
      ¬ (250 : Nat) ≤ 100 := by
  constructor
  · rfl
  · decide

/-- C1 (amended): after update_job_progress on a known job the resulting
    progress_percentage equals floor(processed / total_files * 100) — with
    no clamping above, so it can exceed 100 when processed > total_files —
    and equals 0 when total_files = 0. -/
theorem update_job_progress_floor (store : JobStore) (jid cf : String)
    (p su f : Nat) (job : Job) (h : lookupA jid store = some job) :
    (getJobStatus jid (updateJobProgress jid cf p su f store)).map Job.progress_percentage
        = some (if 0 < job.total_files then p * 100 / job.total_files else 0) ∧
      p * 100 / job.total_files = ⌊(p : ℚ) / (job.total_files : ℚ) * 100⌋₊ := by
  constructor
  · simp [getJobStatus, updateJobProgress, h, lookupA_insertA_self]
  · rw [div_mul_eq_mul_div]
    rw [show ((p : ℚ) * 100) = ((p * 100 : Nat) : ℚ) by push_cast; ring]
    rw [Nat.floor_div_eq_div]

def c1Job : Job :=
  { job_id := "j"
    status := "Processing"
    total_files := 2
    processed_files := 0
    successful_files := 0
    failed_files := 0
    skipped_files := 0
    skipped_unknown_format := 0
    skipped_file_size_limit := 0
    skipped_page_limit := 0
    corrupt_files := 0
    start_time := "t0"
    end_time := none
    current_file := none
    progress_percentage := 0
    metadata_options := []
    data_source := "Local"
    results := [] }

/-- Witness for the amended C1 theorem at a concrete store. -/
theorem update_job_progress_floor_witness :
    (getJobStatus "j" (updateJobProgress "j" "f.pdf" 1 0 0 c1Base)).map Job.progress_percentage
        = some (if 0 < c1Job.total_files then 1 * 100 / c1Job.total_files else 0) ∧
      1 * 100 / c1Job.total_files = ⌊(1 : ℚ) / (c1Job.total_files : ℚ) * 100⌋₊ :=
  update_job_progress_floor c1Base "j" "f.pdf" 1 0 0 c1Job (by decide)

/-! ### C4: operations on an unknown job id -/

/-- C4: for an unknown job_id, get_job_status returns None and the three
    mutating operations return with the job store unchanged. -/
theorem unknown_job_ops_noop (store : JobStore) (jid cf fn : String)
    (p su f : Nat) (success : Bool) (now : String)
    (md : Option (List (String × String))) (er sr : Option String)
    (h : lookupA jid store = none) :
    getJobStatus jid store = none ∧
      updateJobProgress jid cf p su f store = store ∧
      addFileResult jid fn success now md er sr store = store ∧
      completeJob jid success now store = store := by
  refine ⟨h, ?_, ?_, ?_⟩ <;>
    simp [updateJobProgress, addFileResult, completeJob, h]

/-- Witness for C4 at a concrete store holding one unrelated job. -/
theorem unknown_job_ops_noop_witness :
    getJobStatus "b" c1Base = none ∧
      updateJobProgress "b" "x.pdf" 1 1 0 c1Base = c1Base ∧
      addFileResult "b" "x.pdf" true "t1" none none none c1Base = c1Base ∧
      completeJob "b" true "t1" c1Base = c1Base :=
  unknown_job_ops_noop c1Base "b" "x.pdf" "x.pdf" 1 1 0 true "t1" none none none (by decide)

/-! ### C3: counter increments in add_file_result -/

/-- C3: on a known job, add_file_result with success=true increments
    exactly successful_files; with success=false and a (truthy) skip_reason
    it increments exactly skipped_files plus the matching pre-declared
    reason counter when the reason is one of unknown_format,
    file_size_limit, page_limit; with success=false and no skip_reason it
    increments failed_files, plus corrupt_files exactly when the error text
    case-insensitively contains "corrupt", "not readable" or
    "not parsable". -/
theorem add_file_result_counters (store : JobStore) (jid fn now : String)
    (md : Option (List (String × String))) (er : Option String) (job : Job)
    (h : lookupA jid store = some job) :
    (∀ sr, ∃ job2,
        lookupA jid (addFileResult jid fn true now md er sr store) = some job2 ∧
        job2.successful_files = job.successful_files + 1 ∧
        job2.failed_files = job.failed_files ∧
        job2.skipped_files = job.skipped_files ∧
        job2.corrupt_files = job.corrupt_files ∧
        job2.skipped_unknown_format = job.skipped_unknown_format ∧
        job2.skipped_file_size_limit = job.skipped_file_size_limit ∧
        job2.skipped_page_limit = job.skipped_page_limit) ∧
    (∀ s, s ≠ "" → ∃ job2,
        lookupA jid (addFileResult jid fn false now md er (some s) store) = some job2 ∧
        job2.skipped_files = job.skipped_files + 1 ∧
        job2.successful_files = job.successful_files ∧
        job2.failed_files = job.failed_files ∧
        job2.corrupt_files = job.corrupt_files ∧
        job2.skipped_unknown_format
          = job.skipped_unknown_format + (if s = "unknown_format" then 1 else 0) ∧
        job2.skipped_file_size_limit
          = job.skipped_file_size_limit + (if s = "file_size_limit" then 1 else 0) ∧
        job2.skipped_page_limit
          = job.skipped_page_limit + (if s = "page_limit" then 1 else 0)) ∧
    (∃ job2,
        lookupA jid (addFileResult jid fn false now md er none store) = some job2 ∧
        job2.failed_files = job.failed_files + 1 ∧
        job2.corrupt_files = job.corrupt_files + (if corruptMarker er then 1 else 0) ∧
        job2.successful_files = job.successful_files ∧
        job2.skipped_files = job.skipped_files ∧
        job2.skipped_unknown_format = job.skipped_unknown_format ∧
        job2.skipped_file_size_limit = job.skipped_file_size_limit ∧
        job2.skipped_page_limit = job.skipped_page_limit) := by
  refine ⟨?_, ?_, ?_⟩
  · intro sr
    refine ⟨afrJob job fn true now md er sr,
      addFileResult_known store jid fn true now md er sr job h, ?_⟩
    simp [afrJob]
  · intro s hs
    refine ⟨afrJob job fn false now md er (some s),
      addFileResult_known store jid fn false now md er (some s) job h, ?_⟩
    have ht : truthy (some s) = true := by simp [truthy, hs]
    by_cases h1 : s = "unknown_format" <;> by_cases h2 : s = "file_size_limit" <;>
      by_cases h3 : s = "page_limit" <;> simp_all [afrJob]
  · refine ⟨afrJob job fn false now md er none,
      addFileResult_known store jid fn false now md er none job h, ?_⟩
    by_cases hc : corruptMarker er = true <;> simp [afrJob, truthy, hc]

/-- Witness for C3: the skip branch at skip_reason = "page_limit" on a
    concrete store, discharging both hypotheses. -/
theorem add_file_result_counters_witness :
    ∃ job2,
      lookupA "j" (addFileResult "j" "a.pdf" false "t1" none none (some "page_limit") c1Base)
          = some job2 ∧
      job2.skipped_files = c1Job.skipped_files + 1 ∧
      job2.successful_files = c1Job.successful_files ∧
      job2.failed_files = c1Job.failed_files ∧
      job2.corrupt_files = c1Job.corrupt_files ∧
      job2.skipped_unknown_format
        = c1Job.skipped_unknown_format + (if "page_limit" = "unknown_format" then 1 else 0) ∧
      job2.skipped_file_size_limit
        = c1Job.skipped_file_size_limit + (if "page_limit" = "file_size_limit" then 1 else 0) ∧
      job2.skipped_page_limit
        = c1Job.skipped_page_limit + (if "page_limit" = "page_limit" then 1 else 0) :=
  (add_file_result_counters c1Base "j" "a.pdf" "t1" none none c1Job (by decide)).2.1
    "page_limit" (by decide)

/-! ### C2: terminal status, end_time, status transitions -/

inductive JobOp where
  | create (job_id now : String) (total_files : Nat)
      (metadata_options : List String) (data_source : String)
  | update (job_id current_file : String) (processed successful failed : Nat)
  | addResult (job_id filename : String) (success : Bool) (now : String)
      (metadata : Option (List (String × String))) (error skip_reason : Option String)
  | complete (job_id : String) (success : Bool) (now : String)

def applyOp (op : JobOp) (store : JobStore) : JobStore :=
  match op with
  | .create jid now tf mo ds => createJob jid now tf mo ds store
  | .update jid cf p su f => updateJobProgress jid cf p su f store
  | .addResult jid fn su now md er sr => addFileResult jid fn su now md er sr store
  | .complete jid su now => completeJob jid su now store

/-- A job store reachable from process start through the public mutating
    operations. -/
def runOps (ops : List JobOp) : JobStore :=
  ops.foldl (fun st op => applyOp op st) []

/-- Every job with terminal status has its end_time set. -/
def TerminalHasEnd (store : JobStore) : Prop :=
  ∀ jid job, lookupA jid store = some job →
    job.status = "Completed" ∨ job.status = "Failed" → job.end_time.isSome = true

theorem updateJobProgress_preserves_status_end (store : JobStore) (jid cf : String)
    (p su f : Nat) (job job2 : Job)
    (h : lookupA jid store = some job)
    (h2 : lookupA jid (updateJobProgress jid cf p su f store) = some job2) :
    job2.status = job.status ∧ job2.end_time = job.end_time := by
  simp only [updateJobProgress, h, lookupA_insertA_self, Option.some.injEq] at h2
  subst h2
  exact ⟨rfl, rfl⟩

theorem addFileResult_preserves_status_end (store : JobStore) (jid fn : String)
    (success : Bool) (now : String) (md : Option (List (String × String)))
    (er sr : Option String) (job job2 : Job)
    (h : lookupA jid store = some job)
    (h2 : lookupA jid (addFileResult jid fn success now md er sr store) = some job2) :
    job2.status = job.status ∧ job2.end_time = job.end_time := by
  rw [addFileResult_known store jid fn success now md er sr job h,
    Option.some.injEq] at h2
  subst h2
  cases success with
  | true => simp [afrJob]
  | false =>
    cases sr with
    | none =>
      by_cases hc : corruptMarker er = true <;> simp [afrJob, truthy, hc]
    | some s =>
      by_cases hs : s = ""
      · by_cases hc : corruptMarker er = true <;> simp [afrJob, truthy, hs, hc]
      · by_cases h1 : s = "unknown_format" <;> by_cases h2 : s = "file_size_limit" <;>
          by_cases h3 : s = "page_limit" <;> simp_all [afrJob, truthy]

theorem completeJob_known (store : JobStore) (jid : String) (success : Bool)
    (now : String) (job : Job) (h : lookupA jid store = some job) :
    lookupA jid (completeJob jid success now store)
      = some { job with
               status := if success then "Completed" else "Failed"
               end_time := some now
               progress_percentage := 100 } := by
  simp only [completeJob, h]
  exact lookupA_insertA_self _ _ _

theorem terminalHasEnd_applyOp (op : JobOp) (store : JobStore)
    (h : TerminalHasEnd store) : TerminalHasEnd (applyOp op store) := by
  cases op with
  | create jid now tf mo ds =>
    intro jid2 job2 hlook hterm
    simp only [applyOp, createJob, lookupA_insertA] at hlook
    by_cases he : jid = jid2
    · rw [if_pos he, Option.some.injEq] at hlook
      subst hlook
      simp at hterm
    · rw [if_neg he] at hlook
      exact h jid2 job2 hlook hterm
  | update jid cf p su f =>
    intro jid2 job2 hlook hterm
    cases hl : lookupA jid store with
    | none =>
      simp only [applyOp, updateJobProgress, hl] at hlook
      exact h jid2 job2 hlook hterm
    | some job =>
      simp only [applyOp, updateJobProgress, hl, lookupA_insertA] at hlook
      by_cases he : jid = jid2
      · rw [if_pos he, Option.some.injEq] at hlook
        subst hlook
        exact h jid job (he ▸ hl) hterm
      · rw [if_neg he] at hlook
        exact h jid2 job2 hlook hterm
  | addResult jid fn su now md er sr =>
    intro jid2 job2 hlook hterm
    simp only [applyOp] at hlook
    cases hl : lookupA jid store with
    | none =>
      simp only [addFileResult, hl] at hlook
      exact h jid2 job2 hlook hterm
    | some job =>
      by_cases he : jid = jid2
      · subst he
        obtain ⟨hstat, hend⟩ :=
          addFileResult_preserves_status_end store jid fn su now md er sr job job2 hl hlook
        rw [hend]
        exact h jid job hl (hstat ▸ hterm)
      · simp only [addFileResult, hl, lookupA_insertA] at hlook
        rw [if_neg he] at hlook
        exact h jid2 job2 hlook hterm
  | complete jid su now =>
    intro jid2 job2 hlook hterm
    cases hl : lookupA jid store with
    | none =>
      simp only [applyOp, completeJob, hl] at hlook
      exact h jid2 job2 hlook hterm
    | some job =>
      simp only [applyOp, completeJob, hl, lookupA_insertA] at hlook
      by_cases he : jid = jid2
      · rw [if_pos he, Option.some.injEq] at hlook
        subst hlook
        rfl
      · rw [if_neg he] at hlook
        exact h jid2 job2 hlook hterm

theorem terminalHasEnd_runOps (ops : List JobOp) : TerminalHasEnd (runOps ops) := by
  suffices hgen : ∀ store, TerminalHasEnd store →
      TerminalHasEnd (ops.foldl (fun st op => applyOp op st) store) by
    apply hgen
    intro jid job hlook
    cases hlook
  induction ops with
  | nil => intro store h; exact h
  | cons op rest ih =>
    intro store h
    exact ih (applyOp op store) (terminalHasEnd_applyOp op store h)

def c2Store0 : JobStore := createJob "j" "t0" 3 [] "Local" []

def c2Store1 : JobStore := completeJob "j" true "t1" c2Store0

def c2Store2 : JobStore := updateJobProgress "j" "late.pdf" 1 0 0 c2Store1

def c2Store3 : JobStore := completeJob "j" false "t2" c2Store1

/-- C2 counterexample: a job completed at time t1 (status Completed,
    processed_files = 0) is still mutated by a later update_job_progress
    call (processed_files becomes 1), and a later complete_job call flips
    its terminal status from Completed to Failed — terminal states are not
    final and fields are not frozen. -/
theorem completed_job_mutated_after_completion :
    (getJobStatus "j" c2Store1).map Job.status = some "Completed" ∧
      (getJobStatus "j" c2Store1).map Job.processed_files = some 0 ∧
      (getJobStatus "j" c2Store2).map Job.processed_files = some 1 ∧
      (getJobStatus "j" c2Store3).map Job.status = some "Failed" :=
  ⟨rfl, rfl, rfl, rfl⟩

/-- C2 (amended): in every reachable store a job with terminal status
    (Completed or Failed) has end_time set; update_job_progress and
    add_file_result never change a job's status or end_time; complete_job
    sets status to Completed (success) or Failed (failure), end_time, and
    progress 100.  Terminal jobs are however not frozen: later
    update_job_progress / add_file_result calls still mutate their fields
    and a later complete_job can overwrite a terminal status. -/
theorem job_status_lifecycle :
    (∀ ops jid job, lookupA jid (runOps ops) = some job →
        job.status = "Completed" ∨ job.status = "Failed" → job.end_time.isSome = true) ∧
    (∀ store jid cf p su f job job2, lookupA jid store = some job →
        lookupA jid (updateJobProgress jid cf p su f store) = some job2 →
        job2.status = job.status ∧ job2.end_time = job.end_time) ∧
    (∀ store jid fn success now md er sr job job2, lookupA jid store = some job →
        lookupA jid (addFileResult jid fn success now md er sr store) = some job2 →
        job2.status = job.status ∧ job2.end_time = job.end_time) ∧
    (∀ store jid success now job, lookupA jid store = some job →
        lookupA jid (completeJob jid success now store)
          = some { job with
                   status := if success then "Completed" else "Failed"
                   end_time := some now
                   progress_percentage := 100 }) :=
  ⟨fun ops => terminalHasEnd_runOps ops,
   fun store jid cf p su f job job2 =>
     updateJobProgress_preserves_status_end store jid cf p su f job job2,
   fun store jid fn success now md er sr job job2 =>
     addFileResult_preserves_status_end store jid fn success now md er sr job job2,
   fun store jid success now job => completeJob_known store jid success now job⟩

def c2JobDone : Job :=
  { c1Job with
    total_files := 3
    status := "Completed"
    end_time := some "t1"
    progress_percentage := 100 }

def c2JobUpd : Job :=
  { c2JobDone with
    processed_files := 1
    current_file := some "late.pdf"
    progress_percentage := 33 }

def c1JobSucc : Job :=
  { c1Job with
    successful_files := 1
    results := [{ filename := "a.pdf"
                  success := true
                  timestamp := "t1"
                  metadata := []
                  error := none
                  skip_reason := none }] }

/-- Witness for the amended C2 theorem, instantiating all four conjuncts on
    concrete stores. -/
theorem job_status_lifecycle_witness :
    c2JobDone.end_time.isSome = true ∧
      (∃ job2, lookupA "j" c2Store2 = some job2 ∧
        job2.status = c2JobDone.status ∧ job2.end_time = c2JobDone.end_time) ∧
      (∃ job2, lookupA "j" (addFileResult "j" "a.pdf" true "t1" none none none c1Base)
          = some job2 ∧ job2.status = c1Job.status ∧ job2.end_time = c1Job.end_time) ∧
      lookupA "j" (completeJob "j" true "t1" c1Base)
        = some { c1Job with
                 status := if true then "Completed" else "Failed"
                 end_time := some "t1"
                 progress_percentage := 100 } := by
  refine ⟨?_, ?_, ?_, ?_⟩
  · exact job_status_lifecycle.1 [JobOp.create "j" "t0" 3 [] "Local",
      JobOp.complete "j" true "t1"] "j" c2JobDone (by decide) (by decide)
  · exact ⟨c2JobUpd, by decide,
      job_status_lifecycle.2.1 c2Store1 "j" "late.pdf" 1 0 0 c2JobDone c2JobUpd
        (by decide) (by decide)⟩
  · exact ⟨c1JobSucc, by decide,
      job_status_lifecycle.2.2.1 c1Base "j" "a.pdf" true "t1" none none none c1Job c1JobSucc
        (by decide) (by decide)⟩
  · exact job_status_lifecycle.2.2.2 c1Base "j" true "t1" c1Job (by decide)

/-! ### Search engine (search_engine.py)

    The inverted index is term -> postings (document id, token position);
    the defaultdict is embedded as an association list extended on first
    touch, which matches insertion-order iteration.  Scores are exact
    rationals (the float increments 1.0 and 0.5 are dyadic, so float and
    rational arithmetic agree on every reachable score). -/

/-- One author entry: a dict (with an optional name key) or a plain
    string. -/
inductive AuthorItem where
  | obj (name : Option String)
  | str (s : String)
  deriving DecidableEq

/-- The author field: a list (also the .get default) or one flat string. -/
inductive AuthorField where
  | items (l : List AuthorItem)
  | flat (s : String)
  deriving DecidableEq

/-- The document_content dict as index_document reads it; none is an
    absent key.  metadata_abstract stands for the abstract entry of the
    nested metadata sub-dict; a missing sub-dict and a sub-dict without an
    abstract both leave the fallback at None, so both are none. -/
structure DocContent where
  title : Option String
  file_type : Option String
  upload_date : Option String
  author : AuthorField
  topic : Option String
  abstract : Option String
  published_date : Option String
  metadata_abstract : Option String
  deriving DecidableEq

/-- The metadata snapshot stored in self.documents, with the .get defaults
    applied; the snapshot carries no nested metadata sub-dict. -/
structure DocInfo where
  filename : String
  title : String
  file_type : String
  upload_date : String
  author : AuthorField
  topic : String
  abstract : String
  published_date : String
  deriving DecidableEq

structure SearchState where
  index : List (String × List (String × Nat))
  documents : List (String × DocInfo)
  document_count : Nat
  deriving DecidableEq

def emptySearch : SearchState :=
  { index := [], documents := [], document_count := 0 }

/-- The author portion of the searchable text, shared by both
    _create_searchable_text variants. -/
def authorParts : AuthorField → List String
  | .items l =>
    l.filterMap fun it =>
      match it with
      | .obj name =>
        match name with
        | some n => if n ≠ "Not found" then some n else none
        | none => none
      | .str s => if s ≠ "" ∧ s ≠ "Not found" then some s else none
  | .flat s => if s ≠ "" ∧ s ≠ "Not found" then [s] else []

/-- The shared part list of _create_searchable_text and
    _create_searchable_text_from_doc: title when truthy, author names,
    topic / abstract / published_date when truthy and not the sentinel
    "Not found". -/
def searchableParts (title : Option String) (author : AuthorField)
    (topic abstract published_date : Option String) : List String :=
  (match title with
   | some t => if t ≠ "" then [t] else []
   | none => []) ++
  authorParts author ++
  (match topic with
   | some t => if t ≠ "" ∧ t ≠ "Not found" then [t] else []
   | none => []) ++
  (match abstract with
   | some a => if a ≠ "" ∧ a ≠ "Not found" then [a] else []
   | none => []) ++
  (match published_date with
   | some d => if d ≠ "" ∧ d ≠ "Not found" then [d] else []
   | none => [])

/-- SearchEngine._create_searchable_text.  The abstract falls back to the
    nested metadata sub-dict when the top-level one is falsy; a falsy
    result is excluded by searchableParts either way. -/
def createSearchableText (dc : DocContent) : String :=
  let abstract := if truthy dc.abstract then dc.abstract else dc.metadata_abstract
  " ".intercalate (searchableParts dc.title dc.author dc.topic abstract dc.published_date)

/-- SearchEngine._create_searchable_text_from_doc on the stored snapshot:
    all fields are plain strings and there is no metadata sub-dict to fall
    back to. -/
def createSearchableTextFromDoc (d : DocInfo) : String :=
  " ".intercalate (searchableParts (some d.title) d.author (some d.topic)
    (some d.abstract) (some d.published_date))

/-- The regex class \w on the ASCII fragment the sources use. -/
def pyWordChar (c : Char) : Bool := c.isAlphanum || c = '_'

/-- SearchEngine._tokenize: lower-case, replace every non-word character
    with a space, split on whitespace, drop empties.  (The regex keeps
    whitespace and split() splits on it; replacing whitespace by a space
    first and splitting on spaces yields the same tokens.) -/
def tokenize (text : String) : List String :=
  let cleaned := (text.toList.map Char.toLower).map fun c => if pyWordChar c then c else ' '
  ((cleaned.splitOn ' ').filter fun w => w ≠ []).map fun w => String.mk w

/-- The stored snapshot of a document (the dict literal in
    index_document). -/
def mkDocInfo (dc : DocContent) (filename : String) : DocInfo :=
  { filename := filename
    title := dc.title.getD "Untitled"
    file_type := dc.file_type.getD "Unknown"
    upload_date := dc.upload_date.getD ""
    author := dc.author
    topic := dc.topic.getD ""
    abstract := dc.abstract.getD ""
    published_date := dc.published_date.getD "" }

/-- self.index[term].append((doc_id, position)) on the defaultdict. -/
def appendPosting (term docId : String) (pos : Nat) :
    List (String × List (String × Nat)) → List (String × List (String × Nat))
  | [] => [(term, [(docId, pos)])]
  | (t, ps) :: rest =>
    if t = term then (t, ps ++ [(docId, pos)]) :: rest
    else (t, ps) :: appendPosting term docId pos rest

/-- SearchEngine.index_document.  The second component is the Python
    return value: the source has no return statement, so the call returns
    None. -/
def index_document (dc : DocContent) (filename : String) (s : SearchState) :
    SearchState × Option String :=
  let doc_id := "doc_" ++ toString s.document_count
  let s1 : SearchState :=
    { s with
      document_count := s.document_count + 1
      documents := insertA doc_id (mkDocInfo dc filename) s.documents }
  let searchable := createSearchableText dc
  let s2 :=
    if searchable ≠ "" then
      { s1 with
        index := (tokenize searchable).enum.foldl
          (fun ix pt => appendPosting pt.2 doc_id pt.1 ix) s1.index }
    else s1
  (s2, none)

/-- doc_scores[doc_id] += v on the score dict, keeping first-touch
    insertion order. -/
def addScore (docId : String) (v : ℚ) : List (String × ℚ) → List (String × ℚ)
  | [] => [(docId, v)]
  | (k, sc) :: rest =>
    if k = docId then (k, sc + v) :: rest else (k, sc) :: addScore docId v rest

/-- One query term folded into the score dict: 1.0 per posting plus 0.5
    when the posting position is below 100. -/
def scoreTerm (s : SearchState) (scores : List (String × ℚ)) (term : String) :
    List (String × ℚ) :=
  match lookupA term s.index with
  | none => scores
  | some postings =>
    postings.foldl
      (fun sc p =>
        let sc1 := addScore p.1 1 sc
        if p.2 < 100 then addScore p.1 (1 / 2 : ℚ) sc1 else sc1)
      scores

/-- Stable insertion for the descending sort: an element goes after every
    earlier element of greater or equal score, matching the stable Python
    sorted(..., reverse=True). -/
def insertByScore (x : String × ℚ) : List (String × ℚ) → List (String × ℚ)
  | [] => [x]
  | y :: ys => if y.2 < x.2 then x :: y :: ys else y :: insertByScore x ys

def sortByScoreDesc (l : List (String × ℚ)) : List (String × ℚ) :=
  l.foldl (fun acc x => insertByScore x acc) []

/-- Python str.find: offset of the first occurrence of needle, None when
    absent (find of the empty needle is 0). -/
def findSub (needle : List Char) : List Char → Option Nat
  | [] => if isPre needle [] then some 0 else none
  | c :: rest =>
    if isPre needle (c :: rest) then some 0
    else
      match findSub needle rest with
      | some n => some (n + 1)
      | none => none

/-- The first-occurrence scan of _extract_snippet: the smallest found
    offset of any query term, None when no term occurs. -/
def bestPosition (textLower : List Char) (terms : List (List Char)) : Option Nat :=
  terms.foldl
    (fun best term =>
      match findSub term textLower with
      | none => best
      | some pos =>
        match best with
        | none => some pos
        | some b => if pos < b then some pos else best)
    none

/-- SearchEngine._extract_snippet over character lists (Python slicing is
    by characters).  max(0, best - length // 2) is natural subtraction. -/
def extractSnippetL (text : List Char) (queryTerms : List (List Char))
    (snippetLength : Nat) : List Char :=
  let textLower := text.map Char.toLower
  match bestPosition textLower queryTerms with
  | none =>
    if text.length > snippetLength then text.take snippetLength ++ "...".toList
    else text
  | some best =>
    let start := best - snippetLength / 2
    let endPos := min text.length (start + snippetLength)
    let snip0 := (text.drop start).take (endPos - start)
    let snip1 := if start > 0 then "...".toList ++ snip0 else snip0
    if endPos < text.length then snip1 ++ "...".toList else snip1

def extract_snippet (text : String) (queryTerms : List String)
    (snippetLength : Nat) : String :=
  String.mk (extractSnippetL text.toList (queryTerms.map String.toList) snippetLength)

structure SearchResult where
  info : DocInfo
  score : ℚ
  doc_id : String
  snippet : String
  deriving DecidableEq

def defaultDocInfo : DocInfo :=
  { filename := ""
    title := ""
    file_type := ""
    upload_date := ""
    author := .items []
    topic := ""
    abstract := ""
    published_date := "" }

/-- SearchEngine.search.  self.documents[doc_id] cannot miss for a scored
    id (every posting carries a stored id), so the lookup is totalized
    with an irrelevant default. -/
def search (s : SearchState) (query : String) (limit : Nat) : List SearchResult :=
  let query_terms := tokenize (pyLower query)
  if query_terms = [] then []
  else
    let doc_scores := query_terms.foldl (scoreTerm s) []
    let sorted_docs := sortByScoreDesc doc_scores
    (sorted_docs.take limit).map fun p =>
      let doc_info := (lookupA p.1 s.documents).getD defaultDocInfo
      { info := doc_info
        score := p.2
        doc_id := p.1
        snippet := extract_snippet (createSearchableTextFromDoc doc_info) query_terms 200 }

/-! ### C5: the return value of index_document -/

def flaskDoc : DocContent :=
  { title := some "Flask Guide"
    file_type := none
    upload_date := none
    author := .items []
    topic := none
    abstract := none
    published_date := none
    metadata_abstract := none }

/-- C5 counterexample: index_document has no return statement, so the call
    returns None and not the newly assigned document id. -/
theorem index_document_returns_none :
    (index_document flaskDoc "flask_guide.pdf" emptySearch).2 = none ∧
      ¬ (index_document flaskDoc "flask_guide.pdf" emptySearch).2 = some "doc_0" :=
  ⟨rfl, by decide⟩

/-- C5 (amended): index_document assigns the next sequence id
    doc_<document_count>, increments the counter by one, and stores the
    normalized metadata snapshot under that id — but it returns None, not
    the id. -/
theorem index_document_assigns_next_id (dc : DocContent) (fn : String)
    (s : SearchState) :
    (index_document dc fn s).2 = none ∧
      (index_document dc fn s).1.document_count = s.document_count + 1 ∧
      lookupA ("doc_" ++ toString s.document_count) (index_document dc fn s).1.documents
        = some (mkDocInfo dc fn) := by
  refine ⟨rfl, ?_, ?_⟩
  · simp only [index_document]
    split <;> rfl
  · simp only [index_document]
    split <;> exact lookupA_insertA_self _ _ _

/-! ### C6: the Flask Guide scenario -/

def flaskEngine : SearchState :=
  (index_document flaskDoc "flask_guide.pdf" emptySearch).1

def flaskResults : List SearchResult := search flaskEngine "flask guide" 10

/-- C6: after indexing a document titled "Flask Guide", searching
    "flask guide" (limit 10) returns that document (id doc_0) with score
    3.0 ≥ 2.0 — 1.0 per posting of each query term plus 0.5 for a position
    below 100, zero-score documents never entering the score dict, results
    sorted by descending score and truncated to the limit — and a snippet
    containing "Flask Guide". -/
theorem flask_guide_search :
    ∃ r ∈ flaskResults, r.doc_id = "doc_0" ∧ r.score = 3 ∧ (2 : ℚ) ≤ r.score ∧
      pyInStr "Flask Guide" r.snippet = true := by
  with_unfolding_all decide

/-! ### C7: snippet length bound -/

theorem extractSnippetL_length (t : List Char) (qs : List (List Char)) :
    (extractSnippetL t qs 200).length ≤ 206 := by
  have hd : ("...".toList : List Char).length = 3 := rfl
  rcases hb : bestPosition (t.map Char.toLower) qs with _ | best <;>
    simp only [extractSnippetL, hb]
  · split
    · next h =>
      simp [List.length_append, List.length_take, hd]
    · next h => omega
  · by_cases h1 : best - 200 / 2 > 0 <;>
      by_cases h2 : min t.length (best - 200 / 2 + 200) < t.length <;>
        simp [h1, h2, List.length_append, List.length_take, List.length_drop, hd] <;>
          omega

/-- C7: for every text and every list of query terms the extracted
    snippet (window 200) has length at most 206 characters: the window
    plus at most two 3-character ellipses. -/
theorem snippet_length_bound (text : String) (queryTerms : List String) :
    (extract_snippet text queryTerms 200).length ≤ 206 := by
  show (extractSnippetL text.toList (queryTerms.map String.toList) 200).length ≤ 206
  exact extractSnippetL_length _ _

/-! ### Metrics collector (metrics_collector.py)

    time.time() readings are passed in as now; the single lock serializes
    the public calls, which the sequential embedding reflects directly;
    the JSON snapshot rewrite of _save_metrics is dropped (the in-memory
    state is authoritative).  Durations are exact rationals. -/

structure JobMetrics where
  job_id : String
  start_time : ℚ
  end_time : Option ℚ
  total_files : Nat
  successful_files : Nat
  failed_files : Nat
  skipped_files : Nat
  processing_time : ℚ
  status : String
  deriving DecidableEq

structure DocumentMetrics where
  total_processed : Nat
  total_successful : Nat
  total_failed : Nat
  total_skipped : Nat
  total_processing_time : ℚ
  llm_processed : Nat
  llm_successful : Nat
  llm_failed : Nat
  local_processed : Nat
  local_successful : Nat
  local_failed : Nat
  deriving DecidableEq

def emptyDocumentMetrics : DocumentMetrics :=
  { total_processed := 0
    total_successful := 0
    total_failed := 0
    total_skipped := 0
    total_processing_time := 0
    llm_processed := 0
    llm_successful := 0
    llm_failed := 0
    local_processed := 0
    local_successful := 0
    local_failed := 0 }

structure MetricsState where
  jobs : List (String × JobMetrics)
  completed_jobs : List JobMetrics
  document_metrics : DocumentMetrics
  job_latencies : List ℚ
  document_latencies : List ℚ
  deriving DecidableEq

def emptyMetrics : MetricsState :=
  { jobs := []
    completed_jobs := []
    document_metrics := emptyDocumentMetrics
    job_latencies := []
    document_latencies := [] }

/-- collections.deque(maxlen).append: the oldest sample is evicted when
    the buffer is full. -/
def dequeAppend (maxlen : Nat) (q : List ℚ) (x : ℚ) : List ℚ :=
  if q.length < maxlen then q ++ [x] else q.drop (q.length + 1 - maxlen) ++ [x]

namespace Metrics

/-- MetricsCollector.start_job (dataclass defaults fill the remaining
    JobMetrics fields). -/
def startJob (now : ℚ) (job_id : String) (total_files : Nat)
    (s : MetricsState) : MetricsState :=
  { s with
    jobs := insertA job_id
      { job_id := job_id
        start_time := now
        end_time := none
        total_files := total_files
        successful_files := 0
        failed_files := 0
        skipped_files := 0
        processing_time := 0
        status := "processing" } s.jobs }

/-- MetricsCollector.complete_job.  del self.jobs[job_id] is eraseA (keys
    are unique in every reachable state). -/
def completeJob (now : ℚ) (job_id : String) (success : Bool)
    (s : MetricsState) : MetricsState :=
  match lookupA job_id s.jobs with
  | none => s
  | some job =>
    let job2 :=
      { job with
        end_time := some now
        processing_time := now - job.start_time
        status := if success then "completed" else "failed" }
    { s with
      jobs := eraseA job_id s.jobs
      completed_jobs := s.completed_jobs ++ [job2]
      job_latencies := dequeAppend 1000 s.job_latencies job2.processing_time
      document_metrics :=
        { s.document_metrics with
          total_processed := s.document_metrics.total_processed + job2.total_files
          total_successful := s.document_metrics.total_successful + job2.successful_files
          total_failed := s.document_metrics.total_failed + job2.failed_files
          total_skipped := s.document_metrics.total_skipped + job2.skipped_files
          total_processing_time :=
            s.document_metrics.total_processing_time + job2.processing_time } }

/-- The llm-like parser tags of record_document_processing. -/
def llmParserTypes : List String := ["llm", "llm_fallback", "auto_local"]

/-- MetricsCollector.record_document_processing. -/
def recordDocumentProcessing (processing_time : ℚ) (success : Bool)
    (parserType : String) (s : MetricsState) : MetricsState :=
  let s1 :=
    { s with
      document_latencies := dequeAppend 10000 s.document_latencies processing_time }
  let dm := s1.document_metrics
  let dm2 :=
    if parserType ∈ llmParserTypes then
      let a := { dm with llm_processed := dm.llm_processed + 1 }
      if success then { a with llm_successful := a.llm_successful + 1 }
      else { a with llm_failed := a.llm_failed + 1 }
    else
      let a := { dm with local_processed := dm.local_processed + 1 }
      if success then { a with local_successful := a.local_successful + 1 }
      else { a with local_failed := a.local_failed + 1 }
  { s1 with document_metrics := dm2 }

end Metrics

/-- MetricsCollector._calculate_percentile.  int((percentile/100)*len) on
    the non-negative operands is truncated division percentile*len/100
    over exact arithmetic; sorted() ascending on rationals is the unique
    sorted permutation, here insertionSort.  The clamped index is always
    in range; indexing is totalized with an irrelevant default. -/
def calculatePercentile (data : List ℚ) (percentile : Nat) : ℚ :=
  if data = [] then 0
  else
    let sorted := List.insertionSort (· ≤ ·) data
    let index := percentile * data.length / 100
    let index2 := if data.length ≤ index then data.length - 1 else index
    sorted.getD index2 0

/-- The start-time scan of _get_start_time: the earliest completed job
    start, or now when none. -/
def getStartTime (now : ℚ) (s : MetricsState) : ℚ :=
  match s.completed_jobs with
  | [] => now
  | j :: rest => rest.foldl (fun m jm => min m jm.start_time) j.start_time

structure MetricsSummary where
  jobs_total : Nat
  jobs_successful : Nat
  jobs_failed : Nat
  jobs_currently_processing : Nat
  jobs_p50_latency : ℚ
  jobs_p95_latency : ℚ
  jobs_avg_processing_time : ℚ
  documents_total_processed : Nat
  documents_total_successful : Nat
  documents_total_failed : Nat
  documents_total_skipped : Nat
  documents_p50 : ℚ
  documents_p95 : ℚ
  documents_avg : ℚ
  documents_total_processing_time : ℚ
  uptime_seconds : ℚ
  deriving DecidableEq

/-- MetricsCollector.get_metrics_summary (the timestamp string is
    dropped; statistics.mean is sum / length on a non-empty list). -/
def getMetricsSummary (now : ℚ) (s : MetricsState) : MetricsSummary :=
  { jobs_total := s.completed_jobs.length
    jobs_successful := (s.completed_jobs.filter fun j => j.status == "completed").length
    jobs_failed := (s.completed_jobs.filter fun j => j.status == "failed").length
    jobs_currently_processing := s.jobs.length
    jobs_p50_latency := calculatePercentile s.job_latencies 50
    jobs_p95_latency := calculatePercentile s.job_latencies 95
    jobs_avg_processing_time :=
      if s.job_latencies = [] then 0 else s.job_latencies.sum / s.job_latencies.length
    documents_total_processed := s.document_metrics.total_processed
    documents_total_successful := s.document_metrics.total_successful
    documents_total_failed := s.document_metrics.total_failed
    documents_total_skipped := s.document_metrics.total_skipped
    documents_p50 := calculatePercentile s.document_latencies 50
    documents_p95 := calculatePercentile s.document_latencies 95
    documents_avg :=
      if s.document_latencies = [] then 0
      else s.document_latencies.sum / s.document_latencies.length
    documents_total_processing_time := s.document_metrics.total_processing_time
    uptime_seconds := now - getStartTime now s }

/-! ### C8: nearest-rank percentile -/

/-- C8: _calculate_percentile is nearest-rank selection: for a non-empty
    list it returns the element of the ascending sort at index
    floor(percentile/100 × length) clamped to the last valid index; for
    the empty list it returns 0.0; in particular
    percentile([1,2,3,4], 50) = 3. -/
theorem percentile_nearest_rank (data : List ℚ) (p : Nat) :
    (data ≠ [] →
      ∃ l, List.Sorted (· ≤ ·) l ∧ l.Perm data ∧
        calculatePercentile data p
          = l.getD (min (p * data.length / 100) (data.length - 1)) 0) ∧
      calculatePercentile [] p = 0 ∧
      calculatePercentile [1, 2, 3, 4] 50 = 3 := by
  refine ⟨?_, ?_, ?_⟩
  · intro hne
    refine ⟨List.insertionSort (· ≤ ·) data, List.sorted_insertionSort _ _,
      List.perm_insertionSort _ _, ?_⟩
    simp only [calculatePercentile, hne, if_false]
    congr 1
    split <;> omega
  · rfl
  · with_unfolding_all decide

/-- Witness for C8 on the concrete list of the claim. -/
theorem percentile_nearest_rank_witness :
    ∃ l, List.Sorted (· ≤ ·) l ∧ l.Perm ([1, 2, 3, 4] : List ℚ) ∧
      calculatePercentile [1, 2, 3, 4] 50
        = l.getD (min (50 * ([1, 2, 3, 4] : List ℚ).length / 100)
            (([1, 2, 3, 4] : List ℚ).length - 1)) 0 :=
  (percentile_nearest_rank [1, 2, 3, 4] 50).1 (by decide)

/-! ### C9: complete_job moves the JobMetric and folds the totals -/

theorem metrics_completeJob_unknown (now : ℚ) (jid : String) (success : Bool)
    (s : MetricsState) (h : lookupA jid s.jobs = none) :
    Metrics.completeJob now jid success s = s := by
  simp [Metrics.completeJob, h]

def c9Start : MetricsState := Metrics.startJob 0 "j1" 5 emptyMetrics

/-- The state after start_job("j1", 5) and five
    record_document_processing(1.2, True) calls (1.2 seconds is the exact
    rational 6/5; the duration is data only). -/
def c9AfterDocs : MetricsState :=
  Metrics.recordDocumentProcessing (6 / 5) true "local"
    (Metrics.recordDocumentProcessing (6 / 5) true "local"
      (Metrics.recordDocumentProcessing (6 / 5) true "local"
        (Metrics.recordDocumentProcessing (6 / 5) true "local"
          (Metrics.recordDocumentProcessing (6 / 5) true "local" c9Start))))

def c9Final : MetricsState := Metrics.completeJob (7 / 2) "j1" true c9AfterDocs

def c9Job : JobMetrics :=
  { job_id := "j1"
    start_time := 0
    end_time := none
    total_files := 5
    successful_files := 0
    failed_files := 0
    skipped_files := 0
    processing_time := 0
    status := "processing" }

/-- C9: complete_job on an active job removes it from the active map
    (making any further complete_job on that id a no-op, so the move
    happens exactly once), appends its finished JobMetric to the completed
    list, and folds total_files into the cumulative total_processed; the
    claimed scenario start_job("j1",5); record_document_processing(1.2,
    True) ×5; complete_job("j1", True) yields
    documents.total_processed = 5 and jobs.total = 1 in the summary. -/
theorem metrics_complete_job_moves (s : MetricsState) (now : ℚ) (jid : String)
    (success : Bool) (j : JobMetrics) (h : lookupA jid s.jobs = some j) :
    lookupA jid (Metrics.completeJob now jid success s).jobs = none ∧
      (Metrics.completeJob now jid success s).completed_jobs
        = s.completed_jobs ++
            [{ j with
               end_time := some now
               processing_time := now - j.start_time
               status := if success then "completed" else "failed" }] ∧
      (Metrics.completeJob now jid success s).document_metrics.total_processed
        = s.document_metrics.total_processed + j.total_files ∧
      (∀ now2 success2,
        Metrics.completeJob now2 jid success2 (Metrics.completeJob now jid success s)
          = Metrics.completeJob now jid success s) ∧
      (getMetricsSummary 4 c9Final).documents_total_processed = 5 ∧
      (getMetricsSummary 4 c9Final).jobs_total = 1 := by
  have hjobs : (Metrics.completeJob now jid success s).jobs = eraseA jid s.jobs := by
    simp only [Metrics.completeJob, h]
  have hnone : lookupA jid (Metrics.completeJob now jid success s).jobs = none := by
    rw [hjobs]
    exact lookupA_eraseA_self jid s.jobs
  refine ⟨hnone, ?_, ?_, ?_, ?_, ?_⟩
  · simp only [Metrics.completeJob, h]
  · simp only [Metrics.completeJob, h]
  · intro now2 success2
    exact metrics_completeJob_unknown now2 jid success2 _ hnone
  · rfl
  · rfl

/-- Witness for C9 at the concrete scenario state. -/
theorem metrics_complete_job_moves_witness :
    lookupA "j1" (Metrics.completeJob (7 / 2) "j1" true c9AfterDocs).jobs = none ∧
      (Metrics.completeJob (7 / 2) "j1" true c9AfterDocs).document_metrics.total_processed
        = c9AfterDocs.document_metrics.total_processed + c9Job.total_files :=
  ⟨(metrics_complete_job_moves c9AfterDocs (7 / 2) "j1" true c9Job
      (by with_unfolding_all decide)).1,
   (metrics_complete_job_moves c9AfterDocs (7 / 2) "j1" true c9Job
      (by with_unfolding_all decide)).2.2.1⟩

/-! ### C10: the frame of record_document_processing -/

/-- C10: record_document_processing only appends to the document latency
    buffer and bumps the parser-class (llm-class or local-class)
    processed / successful / failed counters; in particular the five
    cumulative counters total_processed, total_successful, total_failed,
    total_skipped and total_processing_time, the job maps and the job
    latency buffer are unchanged. -/
theorem record_document_processing_frame (s : MetricsState) (dt : ℚ)
    (success : Bool) (pt : String) :
    Metrics.recordDocumentProcessing dt success pt s
        = { s with
            document_latencies := dequeAppend 10000 s.document_latencies dt
            document_metrics :=
              if pt ∈ Metrics.llmParserTypes then
                { s.document_metrics with
                  llm_processed := s.document_metrics.llm_processed + 1
                  llm_successful :=
                    s.document_metrics.llm_successful + (if success then 1 else 0)
                  llm_failed :=
                    s.document_metrics.llm_failed + (if success then 0 else 1) }
              else
                { s.document_metrics with
                  local_processed := s.document_metrics.local_processed + 1
                  local_successful :=
                    s.document_metrics.local_successful + (if success then 1 else 0)
                  local_failed :=
                    s.document_metrics.local_failed + (if success then 0 else 1) } } ∧
      (Metrics.recordDocumentProcessing dt success pt s).document_metrics.total_processed
          = s.document_metrics.total_processed ∧
      (Metrics.recordDocumentProcessing dt success pt s).document_metrics.total_successful
          = s.document_metrics.total_successful ∧
      (Metrics.recordDocumentProcessing dt success pt s).document_metrics.total_failed
          = s.document_metrics.total_failed ∧
      (Metrics.recordDocumentProcessing dt success pt s).document_metrics.total_skipped
          = s.document_metrics.total_skipped ∧
      (Metrics.recordDocumentProcessing dt success pt s).document_metrics.total_processing_time
          = s.document_metrics.total_processing_time ∧
      (Metrics.recordDocumentProcessing dt success pt s).jobs = s.jobs ∧
      (Metrics.recordDocumentProcessing dt success pt s).completed_jobs = s.completed_jobs ∧
      (Metrics.recordDocumentProcessing dt success pt s).job_latencies = s.job_latencies := by
  by_cases hm : pt ∈ Metrics.llmParserTypes <;> cases success <;>
    simp [Metrics.recordDocumentProcessing, hm]

end DocuSearch
